import Mathlib

/-!
Verification of the hedged self-trading engine in `market_maker.py`
(`SmartMarketMaker` and `AsterDexClient`).

The engine is embedded shallowly: gateway responses (balances, order book,
order acknowledgements and statuses) are supplied by an explicit environment
record, engine-side mutable caches are threaded as an explicit state record,
and every order submission performed by a modelled code path is collected in
an output list.  Numeric quantities are modelled by `ℚ`; the polling loops of
the Python code are modelled against a gateway whose answers are stable over
one modelled call, so a poll loop reduces to a single status lookup.
-/

namespace MarketMaker

/-- Order status values used by the gateway (`GET /api/v1/order`). -/
inductive OrderStatus
  | NEW
  | PARTIALLY_FILLED
  | FILLED
  | CANCELED
  | REJECTED
  | EXPIRED
  deriving DecidableEq, Repr

/-- The `TradingStrategy` enum of `market_maker.py`. -/
inductive TradingStrategy
  | MARKET_ONLY
  | LIMIT_MARKET
  | BOTH
  | LIMIT_BOTH
  | AUTO
  deriving DecidableEq, Repr

/-- The `AccountBalance` dataclass: free and locked amount of one asset. -/
structure AccountBalance where
  free : ℚ
  locked : ℚ
  deriving DecidableEq, Repr

/-- The `TradingPairConfig` dataclass (one per tracked instrument). -/
structure TradingPairConfig where
  symbol : String
  base_asset : String
  quote_asset : String := "USDT"
  fixed_buy_quantity : ℚ := 10
  target_volume : ℚ := 1000
  max_spread : ℚ := 1/500
  max_price_change : ℚ := 1/200
  min_depth_multiplier : ℚ := 2
  strategy : TradingStrategy := TradingStrategy.BOTH
  min_price_increment : ℚ := 1/10000
  deriving DecidableEq, Repr

instance : Inhabited TradingPairConfig :=
  ⟨{ symbol := "", base_asset := "" }⟩

/-- Global configuration read from the environment in `SmartMarketMaker.__init__`. -/
structure GlobalConfig where
  min_aster_balance : ℚ := 10
  aster_buy_quantity : ℚ := 5
  max_retry : ℕ := 3
  deriving DecidableEq, Repr

/-- A per-account balance cache: the Python dict `asset -> AccountBalance`
built by `get_account_balance`, modelled as an association list in insertion
order. -/
abbrev BalanceDict := List (String × AccountBalance)

/-- First-match association-list lookup (Python dict lookup; `dictInsert`
below never creates a duplicate key, so the first match is the only one). -/
def dictLookup : BalanceDict → String → Option AccountBalance
  | [], _ => none
  | (k, v) :: d, a => if k = a then some v else dictLookup d a

/-- Python dict assignment `balances[asset] = ...`: overwrite the value in
place when the key exists, append otherwise. -/
def dictInsert (d : BalanceDict) (k : String) (v : AccountBalance) : BalanceDict :=
  if (dictLookup d k).isSome then
    d.map (fun p => if p.1 = k then (k, v) else p)
  else
    d ++ [(k, v)]

/-- One entry of the raw `balances` array in the gateway's account response;
`free`/`locked` are optional because the code reads them with
`balance.get('free', 0)`. -/
structure RawBalance where
  asset : String
  free : Option ℚ
  locked : Option ℚ
  deriving DecidableEq, Repr

/-- `AccountBalance(free=float(balance.get('free', 0)), locked=float(balance.get('locked', 0)))`. -/
def parseBalance (e : RawBalance) : AccountBalance :=
  { free := e.free.getD 0, locked := e.locked.getD 0 }

/-- `get_account_balance`: build the balance dict from the gateway's
`balances` array, later entries overwriting earlier ones with the same asset. -/
def buildBalances (raw : List RawBalance) : BalanceDict :=
  raw.foldl (fun d e => dictInsert d e.asset (parseBalance e)) []

/-- `AsterDexClient.get_asset_balance`: sum of free and locked amount of the
cached entry, `0.0` when the asset is absent (source lines 336-341). -/
def getAssetBalance (cache : BalanceDict) (asset : String) : ℚ :=
  match dictLookup cache asset with
  | some b => b.free + b.locked
  | none => 0

/-- Gateway environment: the responses the exchange gives during one modelled
engine operation.  `bid`/`ask`/`bid_qty`/`ask_qty` are what
`get_best_bid_ask` returns from the cached order book (all zero when the book
is empty); `asterBook` is the best (bid, ask) of the ASTERUSDT book, `none`
when that book is empty. -/
structure GatewayEnv where
  gateway1 : List RawBalance
  gateway2 : List RawBalance
  bid : ℚ
  ask : ℚ
  bid_qty : ℚ
  ask_qty : ℚ
  last_prices : List ℚ
  asterBook : Option (ℚ × ℚ)
  orderAccepted : String → Bool
  orderStatus : String → OrderStatus
  now : ℕ

/-- Engine-side mutable state: the two clients' balance caches and the
per-pair trade-direction cache (`_trade_direction_cache`), restricted to the
one pair under consideration. -/
structure EngineState where
  cache1 : BalanceDict
  cache2 : BalanceDict
  direction_cache : Option (String × String)
  deriving DecidableEq, Repr

/-- `refresh_balance_cache` on client 1: drop the cache and re-fetch. -/
def refreshCache1 (env : GatewayEnv) (st : EngineState) : EngineState :=
  { st with cache1 := buildBalances env.gateway1 }

/-- `refresh_balance_cache` on client 2. -/
def refreshCache2 (env : GatewayEnv) (st : EngineState) : EngineState :=
  { st with cache2 := buildBalances env.gateway2 }

/-- The balance cache of the named account. -/
def cacheOf (st : EngineState) (name : String) : BalanceDict :=
  if name = "ACCOUNT1" then st.cache1 else st.cache2

/-- One order submission (`create_order` call); `quantity` is the quantity
passed in, before the exchange-side formatting modelled by
`formatQuantity`. -/
structure OrderReq where
  account : String
  symbol : String
  side : String
  order_type : String
  quantity : ℚ
  price : Option ℚ
  client_order_id : String
  deriving DecidableEq, Repr

/-- `determine_trade_direction` (source lines 964-977): the account with the
larger cached base-asset balance sells, ties go to account 1. -/
def determineTradeDirection (st : EngineState) (pair : TradingPairConfig) :
    String × String :=
  let at_balance1 := getAssetBalance st.cache1 pair.base_asset
  let at_balance2 := getAssetBalance st.cache2 pair.base_asset
  if at_balance1 ≥ at_balance2 then ("ACCOUNT1", "ACCOUNT2")
  else ("ACCOUNT2", "ACCOUNT1")

/-- `get_cached_trade_direction`: return the cached pair, computing and
storing it lazily on first use. -/
def getCachedTradeDirection (st : EngineState) (pair : TradingPairConfig) :
    (String × String) × EngineState :=
  match st.direction_cache with
  | some d => (d, st)
  | none =>
      let d := determineTradeDirection st pair
      (d, { st with direction_cache := some d })

/-- `update_trade_direction_cache`: force recomputation. -/
def updateTradeDirectionCache (st : EngineState) (pair : TradingPairConfig) :
    EngineState :=
  { st with direction_cache := some (determineTradeDirection st pair) }

/-- `get_sell_quantity` with an explicit selling account (source lines
1032-1044): the seller's full cached base-asset balance, plus the account
name. -/
def getSellQuantity (st : EngineState) (pair : TradingPairConfig)
    (sell_client_name : String) : ℚ × String :=
  if sell_client_name = "ACCOUNT1" then
    (getAssetBalance st.cache1 pair.base_asset, "ACCOUNT1")
  else
    (getAssetBalance st.cache2 pair.base_asset, "ACCOUNT2")

/-- `get_sell_quantity` with `sell_client_name=None`: resolve the selling
account through the (lazily filled) direction cache. -/
def getSellQuantityAuto (st : EngineState) (pair : TradingPairConfig) :
    (ℚ × String) × EngineState :=
  let (d, st1) := getCachedTradeDirection st pair
  (getSellQuantity st1 pair d.1, st1)

/-- `calculate_spread_percentage` (source lines 1013-1017): `none` models the
`float('inf')` returned when a side of the book is zero. -/
def calculateSpreadPercentage (bid ask : ℚ) : Option ℚ :=
  if bid = 0 ∨ ask = 0 then none else some ((ask - bid) / bid)

/-- `spread < t` where `spread` may be `float('inf')` (then always false). -/
def spreadLT (s : Option ℚ) (t : ℚ) : Bool :=
  match s with
  | none => false
  | some v => decide (v < t)

/-- `spread > t` where `spread` may be `float('inf')` (then always true). -/
def spreadGT (s : Option ℚ) (t : ℚ) : Bool :=
  match s with
  | none => true
  | some v => decide (v > t)

/-- The list of relative absolute returns built by
`calculate_price_volatility`: `abs(p[i] - p[i-1]) / p[i-1]` for consecutive
prices with nonzero predecessor. -/
def adjacentReturns : List ℚ → List ℚ
  | a :: b :: rest =>
      (if a ≠ 0 then [|b - a| / a] else []) ++ adjacentReturns (b :: rest)
  | _ => []

/-- Python `max(l) if l else d` (every element of the lists fed here is
nonnegative, so a left fold starting from the head agrees with `max`). -/
def pyMaxD (l : List ℚ) (d : ℚ) : ℚ :=
  match l with
  | [] => d
  | x :: xs => xs.foldl max x

/-- `calculate_price_volatility` (source lines 1019-1030). -/
def calculatePriceVolatility (prices : List ℚ) : ℚ :=
  if prices.length < 2 then 0 else pyMaxD (adjacentReturns prices) 0

/-- Python slice `s[-2:-1]` for the strings fed to it (length ≥ 2). -/
def pySliceNeg2Neg1 (s : String) : String :=
  String.mk ((s.toList.drop (s.toList.length - 2)).take 1)

/-- `name.lower()[-2:-1]`, the account tag used inside client order ids;
note it is `"t"` for both `"ACCOUNT1"` and `"ACCOUNT2"`. -/
def accountTag (name : String) : String :=
  pySliceNeg2Neg1 name.toLower

/-- `check_sell_conditions` (source lines 1107-1113): some base asset must be
available to sell; reads (and lazily fills) the direction cache. -/
def checkSellConditions (st : EngineState) (pair : TradingPairConfig) :
    Bool × EngineState :=
  let (qa, st1) := getSellQuantityAuto st pair
  (decide (qa.1 > 0), st1)

/-- `check_buy_conditions` (source lines 1082-1105): the buying account must
hold enough USDT for the fixed buy quantity at the mid price. -/
def checkBuyConditions (env : GatewayEnv) (st : EngineState)
    (pair : TradingPairConfig) : Bool × EngineState :=
  let (d, st1) := getCachedTradeDirection st pair
  let available_usdt :=
    if d.2 = "ACCOUNT1" then getAssetBalance st1.cache1 "USDT"
    else getAssetBalance st1.cache2 "USDT"
  if env.bid = 0 ∨ env.ask = 0 then (false, st1)
  else
    let current_price := (env.bid + env.ask) / 2
    (decide (available_usdt ≥ pair.fixed_buy_quantity * current_price), st1)

/-- `check_sell_conditions_with_retry` (source lines 1064-1080): up to `fuel`
attempts; between attempts both balance caches are force-refreshed and the
direction cache recomputed (no refresh after the final failed attempt). -/
def checkSellConditionsWithRetry (env : GatewayEnv) (pair : TradingPairConfig) :
    ℕ → EngineState → Bool × EngineState
  | 0, st => (false, st)
  | n + 1, st =>
      let (ok, st1) := checkSellConditions st pair
      if ok then (true, st1)
      else if n = 0 then (false, st1)
      else
        let st2 := refreshCache2 env (refreshCache1 env st1)
        let st3 := updateTradeDirectionCache st2 pair
        checkSellConditionsWithRetry env pair n st3

/-- `check_buy_conditions_with_retry` (source lines 1046-1062). -/
def checkBuyConditionsWithRetry (env : GatewayEnv) (pair : TradingPairConfig) :
    ℕ → EngineState → Bool × EngineState
  | 0, st => (false, st)
  | n + 1, st =>
      let (ok, st1) := checkBuyConditions env st pair
      if ok then (true, st1)
      else if n = 0 then (false, st1)
      else
        let st2 := refreshCache2 env (refreshCache1 env st1)
        let st3 := updateTradeDirectionCache st2 pair
        checkBuyConditionsWithRetry env pair n st3

/-- `wait_for_orders_completion` (source lines 2733-2766) against a gateway
whose statuses are stable over the wait: true exactly when every order polls
as `FILLED` or `PARTIALLY_FILLED` (a terminal failure or an order stuck in
`NEW` yields false, by the early return or by the timeout respectively). -/
def waitForOrdersCompletion (env : GatewayEnv) (ids : List String) : Bool :=
  ids.all fun id =>
    match env.orderStatus id with
    | OrderStatus.FILLED => true
    | OrderStatus.PARTIALLY_FILLED => true
    | _ => false

/-- `wait_for_aster_order_completion` (source lines 755-785) against a stable
gateway: only a `FILLED` poll returns true; `PARTIALLY_FILLED`/`NEW` wait out
the timeout and terminal failures return false. -/
def waitForAsterOrderCompletion (env : GatewayEnv) (order_id : String) : Bool :=
  match env.orderStatus order_id with
  | OrderStatus.FILLED => true
  | _ => false

/-- `buy_aster_for_account` (source lines 666-753): up to `fuel` (= 3)
attempts to top up the ASTER balance of `name` with a limit buy; returns the
success flag, the updated state and the submitted orders. -/
def buyAsterForAccount (cfg : GlobalConfig) (env : GatewayEnv) (name : String) :
    ℕ → EngineState → Bool × EngineState × List OrderReq
  | 0, st => (false, st, [])
  | n + 1, st =>
      match env.asterBook with
      | none => buyAsterForAccount cfg env name n st
      | some (best_bid, _best_ask) =>
          let buy_price := best_bid + 1/10000
          let usdt_balance := getAssetBalance (cacheOf st name) "USDT"
          let required_usdt := cfg.aster_buy_quantity * buy_price
          if usdt_balance < required_usdt then (false, st, [])
          else
            let order_id := name.toLower ++ "_aster_buy_" ++ toString env.now
            let req : OrderReq :=
              { account := name, symbol := "ASTERUSDT", side := "BUY",
                order_type := "LIMIT", quantity := cfg.aster_buy_quantity,
                price := some buy_price, client_order_id := order_id }
            if env.orderAccepted order_id then
              if waitForAsterOrderCompletion env order_id then
                let st1 := if name = "ACCOUNT1" then refreshCache1 env st
                           else refreshCache2 env st
                (true, st1, [req])
              else
                -- cancel the unfilled order, refresh, re-check the balance
                let st1 := if name = "ACCOUNT1" then refreshCache1 env st
                           else refreshCache2 env st
                if getAssetBalance (cacheOf st1 name) "ASTER" ≥ cfg.min_aster_balance then
                  (true, st1, [req])
                else
                  let (r, st2, log) := buyAsterForAccount cfg env name n st1
                  (r, st2, req :: log)
            else
              let (r, st2, log) := buyAsterForAccount cfg env name n st
              (r, st2, req :: log)

/-- `check_and_buy_aster_if_needed` (source lines 625-664). -/
def checkAndBuyAsterIfNeeded (cfg : GlobalConfig) (env : GatewayEnv)
    (st : EngineState) : Bool × EngineState × List OrderReq :=
  let aster_balance1 := getAssetBalance st.cache1 "ASTER"
  let aster_balance2 := getAssetBalance st.cache2 "ASTER"
  if aster_balance1 ≥ cfg.min_aster_balance ∧ aster_balance2 ≥ cfg.min_aster_balance then
    (true, st, [])
  else
    let (stA, logA) :=
      if aster_balance1 < cfg.min_aster_balance then
        let (_, s, l) := buyAsterForAccount cfg env "ACCOUNT1" 3 st
        (s, l)
      else (st, [])
    let (stB, logB) :=
      if aster_balance2 < cfg.min_aster_balance then
        let (_, s, l) := buyAsterForAccount cfg env "ACCOUNT2" 3 stA
        (s, l)
      else (stA, [])
    -- re-check both balances with force_refresh=True
    let stC := refreshCache2 env (refreshCache1 env stB)
    let aster1_after := getAssetBalance stC.cache1 "ASTER"
    let aster2_after := getAssetBalance stC.cache2 "ASTER"
    (decide (aster1_after ≥ cfg.min_aster_balance ∧ aster2_after ≥ cfg.min_aster_balance),
     stC, logA ++ logB)

/-- The initialization market buy inside `initialize_at_balance` for a chosen
buying account with the given available USDT (source lines 895-939). -/
def initializeBuy (env : GatewayEnv) (pair : TradingPairConfig)
    (buy_client_name : String) (available_usdt : ℚ) (st : EngineState) :
    Bool × EngineState × List OrderReq :=
  if env.bid = 0 ∨ env.ask = 0 then (false, st, [])
  else
    let current_price := (env.bid + env.ask) / 2
    let buy_quantity := min pair.fixed_buy_quantity (available_usdt * (1/2) / current_price)
    if buy_quantity ≤ 0 then (false, st, [])
    else
      let buy_order_id :=
        accountTag buy_client_name ++ "_" ++ pair.base_asset.toLower ++ "_ib_" ++
          toString env.now
      let req : OrderReq :=
        { account := buy_client_name, symbol := pair.symbol, side := "BUY",
          order_type := "MARKET", quantity := buy_quantity, price := none,
          client_order_id := buy_order_id }
      if env.orderAccepted buy_order_id then
        if waitForOrdersCompletion env [buy_order_id] then
          (true, refreshCache2 env (refreshCache1 env st), [req])
        else (false, st, [req])
      else (false, st, [req])

/-- `initialize_at_balance` (source lines 861-942). -/
def initializeAtBalance (env : GatewayEnv) (pair : TradingPairConfig)
    (st : EngineState) : Bool × EngineState × List OrderReq :=
  let at_balance1 := getAssetBalance st.cache1 pair.base_asset
  let at_balance2 := getAssetBalance st.cache2 pair.base_asset
  let half := pair.fixed_buy_quantity / 2
  if at_balance1 ≥ half ∧ at_balance2 ≥ half then (true, st, [])
  else if at_balance1 < half ∧ at_balance2 < half then
    let usdt_balance1 := getAssetBalance st.cache1 "USDT"
    let usdt_balance2 := getAssetBalance st.cache2 "USDT"
    if usdt_balance1 ≥ usdt_balance2 ∧ usdt_balance1 > 0 then
      initializeBuy env pair "ACCOUNT1" usdt_balance1 st
    else if usdt_balance2 > 0 then
      initializeBuy env pair "ACCOUNT2" usdt_balance2 st
    else (false, st, [])
  else (true, st, [])

/-- `check_market_conditions` (source lines 1226-1294): Aster top-up check,
balance-mode selection (sell-only when both accounts hold at least half the
configured quantity), initialization when both are short, retried sell/buy
condition checks, then spread, volatility and depth gates.  Returns the
(ok, trade_mode) pair together with the updated engine state and every order
submitted while checking. -/
def checkMarketConditions (cfg : GlobalConfig) (env : GatewayEnv)
    (pair : TradingPairConfig) (st : EngineState) :
    (Bool × String) × EngineState × List OrderReq :=
  let (asterOk, st1, log1) := checkAndBuyAsterIfNeeded cfg env st
  if ¬ asterOk then ((false, "error"), st1, log1)
  else
    let at_balance1 := getAssetBalance st1.cache1 pair.base_asset
    let at_balance2 := getAssetBalance st1.cache2 pair.base_asset
    let balance_threshold := pair.fixed_buy_quantity / 2
    if at_balance1 ≥ balance_threshold ∧ at_balance2 ≥ balance_threshold then
      ((true, "sell_only"), st1, log1)
    else
      let (initOk, st2, log2) :=
        if at_balance1 < balance_threshold ∧ at_balance2 < balance_threshold then
          initializeAtBalance env pair st1
        else (true, st1, [])
      if ¬ initOk then ((false, "error"), st2, log1 ++ log2)
      else
        let (sellOk, st3) := checkSellConditionsWithRetry env pair 3 st2
        if ¬ sellOk then ((false, "error"), st3, log1 ++ log2)
        else
          let (buyOk, st4) := checkBuyConditionsWithRetry env pair 3 st3
          if ¬ buyOk then ((false, "error"), st4, log1 ++ log2)
          else if env.bid = 0 ∨ env.ask = 0 then ((false, "error"), st4, log1 ++ log2)
          else if spreadGT (calculateSpreadPercentage env.bid env.ask) pair.max_spread then
            ((false, "error"), st4, log1 ++ log2)
          else if calculatePriceVolatility env.last_prices > pair.max_price_change then
            ((false, "error"), st4, log1 ++ log2)
          else
            let min_required_depth := pair.fixed_buy_quantity * pair.min_depth_multiplier
            if env.bid_qty < min_required_depth ∨ env.ask_qty < min_required_depth then
              ((false, "error"), st4, log1 ++ log2)
            else
              let (_, st5) := getSellQuantityAuto st4 pair
              let (_, st6) := getCachedTradeDirection st5 pair
              ((true, "normal"), st6, log1 ++ log2)

/-- Sell-leg quantity of `strategy_limit_both` (source lines 1790-1792): the
seller's cached balance, capped at 5000. -/
def sellQuantityLimitBoth (st : EngineState) (pair : TradingPairConfig)
    (sell_client_name : String) : ℚ :=
  let q := (getSellQuantity st pair sell_client_name).1
  if q > 5000 then 5000 else q

/-- Sell-leg quantity of `strategy_market_only` (source lines 2118-2119): the
seller's cached balance, with no cap. -/
def sellQuantityMarketOnly (st : EngineState) (pair : TradingPairConfig)
    (sell_client_name : String) : ℚ :=
  (getSellQuantity st pair sell_client_name).1

/-- Sell-leg quantity of the Limit-Market paths
(`execute_limit_sell_market_buy`, source lines 2357-2359, and
`execute_limit_buy_market_sell`, source lines 2435-2437): cached balance
capped at 5000. -/
def sellQuantityLimitMarket (st : EngineState) (pair : TradingPairConfig)
    (sell_client_name : String) : ℚ :=
  let q := (getSellQuantity st pair sell_client_name).1
  if q > 5000 then 5000 else q

/-- Quantity of the emergency market sell in
`monitor_limit_sell_market_buy_orders` (source lines 2548-2550): cached
balance capped at 5000. -/
def emergencySellQuantity (st : EngineState) (pair : TradingPairConfig)
    (sell_client_name : String) : ℚ :=
  let q := (getSellQuantity st pair sell_client_name).1
  if q > 5000 then 5000 else q

/-- `handle_partial_limit_sell` (source lines 2170-2233): cancel the
remainder of the partially filled limit sell, force-refresh the seller's
balance cache from the gateway, and market-sell the seller's entire re-read
base-asset balance whenever it exceeds 0.1.  Returns the success flag, the
updated state, and the submitted market order (if any). -/
def handlePartialLimitSell (env : GatewayEnv) (st : EngineState)
    (pair : TradingPairConfig) (sell_client_name : String) (timestamp : ℕ) :
    Bool × EngineState × List OrderReq :=
  -- cancel_order on the resting limit order, then refresh_balance_cache
  let st1 := if sell_client_name = "ACCOUNT1" then refreshCache1 env st
             else refreshCache2 env st
  let remaining_quantity :=
    if sell_client_name = "ACCOUNT1" then getAssetBalance st1.cache1 pair.base_asset
    else getAssetBalance st1.cache2 pair.base_asset
  if remaining_quantity > 1/10 then
    let order_id := pair.base_asset.toLower ++ "_es_" ++ toString timestamp
    let req : OrderReq :=
      { account := sell_client_name, symbol := pair.symbol, side := "SELL",
        order_type := "MARKET", quantity := remaining_quantity, price := none,
        client_order_id := order_id }
    if env.orderAccepted order_id then
      match env.orderStatus order_id with
      | OrderStatus.FILLED =>
          let st2 := if sell_client_name = "ACCOUNT1" then refreshCache1 env st1
                     else refreshCache2 env st1
          (true, st2, [req])
      | OrderStatus.PARTIALLY_FILLED =>
          let st2 := if sell_client_name = "ACCOUNT1" then refreshCache1 env st1
                     else refreshCache2 env st1
          (true, st2, [req])
      | _ => (false, st1, [req])
    else (false, st1, [req])
  else (true, st1, [])

/-- `handle_partial_limit_buy` (source lines 2672-2731): cancel the
remainder, force-refresh the buyer's cache, and market-buy
`fixed_buy_quantity - current base balance` whenever that exceeds 0.1. -/
def handlePartialLimitBuy (env : GatewayEnv) (st : EngineState)
    (pair : TradingPairConfig) (buy_client_name : String) (timestamp : ℕ) :
    Bool × EngineState × List OrderReq :=
  let st1 := if buy_client_name = "ACCOUNT1" then refreshCache1 env st
             else refreshCache2 env st
  let current_buy_balance :=
    if buy_client_name = "ACCOUNT1" then getAssetBalance st1.cache1 pair.base_asset
    else getAssetBalance st1.cache2 pair.base_asset
  let remaining_quantity := pair.fixed_buy_quantity - current_buy_balance
  if remaining_quantity > 1/10 then
    let order_id := pair.base_asset.toLower ++ "_eb_" ++ toString timestamp
    let req : OrderReq :=
      { account := buy_client_name, symbol := pair.symbol, side := "BUY",
        order_type := "MARKET", quantity := remaining_quantity, price := none,
        client_order_id := order_id }
    if env.orderAccepted order_id then
      match env.orderStatus order_id with
      | OrderStatus.FILLED =>
          let st2 := if buy_client_name = "ACCOUNT1" then refreshCache1 env st1
                     else refreshCache2 env st1
          (true, st2, [req])
      | OrderStatus.PARTIALLY_FILLED =>
          let st2 := if buy_client_name = "ACCOUNT1" then refreshCache1 env st1
                     else refreshCache2 env st1
          (true, st2, [req])
      | _ => (false, st1, [req])
    else (false, st1, [req])
  else (true, st1, [])

/-!  Client order ids of `strategy_limit_both` (source lines 1771-2048). -/

/-- `sell_order_id = f"{sell_client_name.lower()[-2:-1]}_ls_{timestamp}"`
(source line 1786). -/
def limitBothSellOrderId (sell_client_name : String) (timestamp : ℕ) : String :=
  accountTag sell_client_name ++ "_ls_" ++ toString timestamp

/-- `buy_order_id = f"{buy_client_name.lower()[-2:-1]}_lb_{timestamp}"`
(source line 1787). -/
def limitBothBuyOrderId (buy_client_name : String) (timestamp : ℕ) : String :=
  accountTag buy_client_name ++ "_lb_" ++ toString timestamp

/-- The follow-up order submissions `strategy_limit_both` can perform after
the two initial limit legs. -/
inductive LBEvent
  | repriceSell
  | repriceBuy
  | convertSellMarket
  | convertBuyMarket
  | timeoutSellMarket
  | timeoutBuyMarket
  | finalSellMarket
  | finalBuyMarket
  deriving DecidableEq, Repr

/-- The client order id `strategy_limit_both` attaches to each follow-up
submission.  The variables `sell_order_id` and `buy_order_id` are never
reassigned in the source, so every repricing of the same leg reuses the same
`..._r` id (source lines 1873 and 1898), every same-leg market conversion
the same `..._market` id (lines 1939, 1976), the timeout conversions
`..._timeout_market` (lines 2004, 2020) and the final timeout handler
`..._final_market` (lines 2073, 2086, via `handle_timeout_orders`). -/
def limitBothEventOrderId (sell_client_name buy_client_name : String)
    (timestamp : ℕ) : LBEvent → String
  | LBEvent.repriceSell => limitBothSellOrderId sell_client_name timestamp ++ "_r"
  | LBEvent.repriceBuy => limitBothBuyOrderId buy_client_name timestamp ++ "_r"
  | LBEvent.convertSellMarket => limitBothSellOrderId sell_client_name timestamp ++ "_market"
  | LBEvent.convertBuyMarket => limitBothBuyOrderId buy_client_name timestamp ++ "_market"
  | LBEvent.timeoutSellMarket => limitBothSellOrderId sell_client_name timestamp ++ "_timeout_market"
  | LBEvent.timeoutBuyMarket => limitBothBuyOrderId buy_client_name timestamp ++ "_timeout_market"
  | LBEvent.finalSellMarket => limitBothSellOrderId sell_client_name timestamp ++ "_final_market"
  | LBEvent.finalBuyMarket => limitBothBuyOrderId buy_client_name timestamp ++ "_final_market"

/-- All client order ids submitted by one `strategy_limit_both` call whose
monitoring loop performs the given sequence of follow-up submissions: the two
initial limit legs followed by the follow-up ids in order. -/
def limitBothSubmittedIds (sell_client_name buy_client_name : String)
    (timestamp : ℕ) (events : List LBEvent) : List String :=
  limitBothSellOrderId sell_client_name timestamp ::
    limitBothBuyOrderId buy_client_name timestamp ::
      events.map (limitBothEventOrderId sell_client_name buy_client_name timestamp)

/-!  Adaptive strategy selection (source lines 1141-1224). -/

/-- `StrategyPerformance` restricted to the fields strategy selection reads. -/
structure StrategyPerformance where
  success_count : ℕ
  total_count : ℕ
  deriving DecidableEq, Repr

/-- `StrategyPerformance.success_rate`: percentage, 0 when no attempts. -/
def successRate (p : StrategyPerformance) : ℚ :=
  if p.total_count = 0 then 0
  else ((p.success_count : ℚ) / (p.total_count : ℚ)) * 100

/-- The three strategies tracked in `self.strategy_performance[symbol]`, in
Python dict insertion order (source lines 524-528). -/
def trackedStrategies : List TradingStrategy :=
  [TradingStrategy.LIMIT_BOTH, TradingStrategy.MARKET_ONLY, TradingStrategy.LIMIT_MARKET]

/-- Spread component of the market score (source lines 1150-1157). -/
def spreadScore (pair : TradingPairConfig) (spread : Option ℚ) : ℕ :=
  let min_spread_threshold := pair.min_price_increment * 5
  if spreadLT spread min_spread_threshold then 3
  else if spreadLT spread (min_spread_threshold * 2) then 2
  else if spreadLT spread (min_spread_threshold * 4) then 1
  else 0

/-- Depth component of the market score (source lines 1159-1167). -/
def depthScore (pair : TradingPairConfig) (bid_qty ask_qty : ℚ) : ℕ :=
  let min_depth := min bid_qty ask_qty
  let required_depth := pair.fixed_buy_quantity * pair.min_depth_multiplier
  if min_depth > required_depth * 5 then 3
  else if min_depth > required_depth * 3 then 2
  else if min_depth > required_depth * (3/2) then 1
  else 0

/-- Volatility component of the market score (source lines 1169-1175). -/
def volatilityScore (volatility : ℚ) : ℕ :=
  if volatility < 1/1000 then 3
  else if volatility < 3/1000 then 2
  else if volatility < 1/200 then 1
  else 0

/-- The total market score of `auto_select_strategy_by_market_condition`. -/
def marketScore (env : GatewayEnv) (pair : TradingPairConfig) : ℕ :=
  spreadScore pair (calculateSpreadPercentage env.bid env.ask) +
    depthScore pair env.bid_qty env.ask_qty +
      volatilityScore (calculatePriceVolatility env.last_prices)

/-- `auto_select_strategy_by_market_condition` (source lines 1141-1186). -/
def autoSelectStrategyByMarketCondition (env : GatewayEnv)
    (pair : TradingPairConfig) : TradingStrategy :=
  let score := marketScore env pair
  if score ≥ 7 then TradingStrategy.LIMIT_BOTH
  else if score ≥ 4 then TradingStrategy.LIMIT_MARKET
  else TradingStrategy.MARKET_ONLY

/-- `get_best_strategy` (source lines 1205-1224): among the tracked
strategies with at least 5 completed attempts pick the one with the highest
success rate (Python `max` keeps the earliest of equals); with no such
strategy fall back to the market-condition score. -/
def getBestStrategy (env : GatewayEnv) (pair : TradingPairConfig)
    (perf : TradingStrategy → StrategyPerformance) : TradingStrategy :=
  let valid := trackedStrategies.filter fun s => (perf s).total_count ≥ 5
  match valid with
  | [] => autoSelectStrategyByMarketCondition env pair
  | s :: rest =>
      rest.foldl (fun best s' =>
        if successRate (perf s') > successRate (perf best) then s' else best) s

/-!  Volume accounting of `execute_trading_cycle` (source lines 1395-1472)
and the scheduler loop `monitor_and_trade` (source lines 2891-2948).  The
strategy execution itself is abstracted by the oracle fields below: the
engine's own accounting is what these claims are about. -/

/-- The inputs that determine one `execute_trading_cycle` outcome: whether
`check_market_conditions` passed, the trade mode it returned, and whether the
executed strategy reported success. -/
structure CycleOracle where
  marketOk : Bool
  trade_mode : String
  success : Bool
  deriving DecidableEq, Repr

/-- The success flag and updated cumulative volume of one
`execute_trading_cycle` call: a failed market check leaves the volume
untouched; a successful cycle adds the fixed quantity once in sell-only mode
and twice in hedge mode (source lines 1440-1451). -/
def executeTradingCycleVolume (o : CycleOracle) (pair : TradingPairConfig)
    (volume : ℚ) : Bool × ℚ :=
  if ¬ o.marketOk then (false, volume)
  else if o.success then
    let trade_volume :=
      if o.trade_mode = "sell_only" then pair.fixed_buy_quantity
      else pair.fixed_buy_quantity * 2
    (true, volume + trade_volume)
  else (false, volume)

/-- The cumulative volume after a sequence of cycle attempts. -/
def runCycles (pair : TradingPairConfig) (os : List CycleOracle) (v : ℚ) : ℚ :=
  os.foldl (fun vol o => (executeTradingCycleVolume o pair vol).2) v

/-- Scheduler state of `monitor_and_trade`: current pair index, per-pair
cumulative volumes, consecutive failure counter. -/
structure SchedState where
  current_pair_index : ℕ
  volumes : List ℚ
  consecutive_failures : ℕ
  deriving DecidableEq, Repr

/-- `switch_to_next_pair` (source lines 588-595). -/
def switchToNextPair (n i : ℕ) : ℕ := (i + 1) % n

/-- One iteration of the `monitor_and_trade` loop (source lines 2898-2942):
run a cycle on the current pair; on success reset the failure counter and,
when the pair's volume has reached its target, report the target and rotate;
on the third consecutive failure reset and rotate; finally rotate once more
unconditionally.  Returns the new state and whether the target was reported
reached this iteration. -/
def monitorStep (pairs : List TradingPairConfig) (o : CycleOracle)
    (s : SchedState) : SchedState × Bool :=
  let n := pairs.length
  let pair := pairs.getD s.current_pair_index default
  let v := s.volumes.getD s.current_pair_index 0
  let (succ, v1) := executeTradingCycleVolume o pair v
  let volumes1 := s.volumes.set s.current_pair_index v1
  if succ then
    let reached := decide (v1 ≥ pair.target_volume)
    let i1 := if reached then switchToNextPair n s.current_pair_index
              else s.current_pair_index
    ({ current_pair_index := switchToNextPair n i1, volumes := volumes1,
       consecutive_failures := 0 }, reached)
  else
    let f := s.consecutive_failures + 1
    if f ≥ 3 then
      ({ current_pair_index := switchToNextPair n (switchToNextPair n s.current_pair_index),
         volumes := volumes1, consecutive_failures := 0 }, false)
    else
      ({ current_pair_index := switchToNextPair n s.current_pair_index,
         volumes := volumes1, consecutive_failures := f }, false)

/-- Iterate the scheduler with a constant per-cycle oracle. -/
def runSched (pairs : List TradingPairConfig) (o : CycleOracle) :
    ℕ → SchedState → SchedState
  | 0, s => s
  | n + 1, s => runSched pairs o n (monitorStep pairs o s).1

/-!  Quantity formatting in `AsterDexClient.create_order` (source lines
250-286). -/

/-- Round-half-to-even on `ℚ`, the semantics of Python's builtin `round`. -/
def roundHalfEven (x : ℚ) : ℤ :=
  let f := ⌊x⌋
  let r := x - (f : ℚ)
  if r < 1/2 then f
  else if r > 1/2 then f + 1
  else if f % 2 = 0 then f else f + 1

/-- Python `round(x, nd)`. -/
def pyRound (x : ℚ) (nd : ℕ) : ℚ :=
  (roundHalfEven (x * (10 : ℚ) ^ nd) : ℚ) / (10 : ℚ) ^ nd

/-- `formatted_quantity = round(math.floor(quantity / 0.01) * 0.01, 2)`
(source line 257), in exact rational arithmetic. -/
def formatQuantity (quantity : ℚ) : ℚ :=
  pyRound ((⌊quantity / (1/100)⌋ : ℚ) * (1/100)) 2

/-- The raw gateway entry that, at the time `build_balances` ran, determined
the cached entry for `asset`: the last entry of the response with that asset
(later entries overwrite earlier ones in the Python dict). -/
def lastRawEntry (raw : List RawBalance) (asset : String) : Option RawBalance :=
  raw.reverse.find? fun e => e.asset == asset

/-!  Concrete instruments, environments and states used by the concrete
theorems below. -/

/-- An ATUSDT instrument with the configuration defaults
(`fixed_buy_quantity = 10`, `max_spread = 0.002`, ...). -/
def pairAT : TradingPairConfig :=
  { symbol := "ATUSDT", base_asset := "AT" }

/-- The spec's example instrument X: fixed quantity 10, target volume 100. -/
def pairX : TradingPairConfig :=
  { symbol := "XUSDT", base_asset := "X", target_volume := 100 }

/-- Global configuration defaults. -/
def cfg0 : GlobalConfig := {}

/-- A state in which the selling account holds 6000 AT, more than the 5000
safety ceiling. -/
def stBal6000 : EngineState :=
  { cache1 := [("AT", { free := 6000, locked := 0 })],
    cache2 := [("AT", { free := 0, locked := 0 })],
    direction_cache := some ("ACCOUNT1", "ACCOUNT2") }

/-- Gateway responses after 1000 of the 5000-quantity limit sell of
`stBal6000`'s seller filled: the seller's balance is down to 5000. -/
def envAfterPartialFill : GatewayEnv :=
  { gateway1 := [{ asset := "AT", free := some 5000, locked := some 0 }],
    gateway2 := [],
    bid := 1, ask := 1001/1000, bid_qty := 100, ask_qty := 100,
    last_prices := [], asterBook := none,
    orderAccepted := fun _ => true,
    orderStatus := fun _ => OrderStatus.FILLED,
    now := 0 }

/-- A market whose spread is 0.003, above `pairAT`'s configured maximum of
0.002. -/
def envWideSpread : GatewayEnv :=
  { gateway1 := [], gateway2 := [],
    bid := 1, ask := 1003/1000, bid_qty := 100, ask_qty := 100,
    last_prices := [], asterBook := none,
    orderAccepted := fun _ => false,
    orderStatus := fun _ => OrderStatus.NEW,
    now := 0 }

/-- Both accounts hold ample ASTER and at least half the configured quantity
of the base asset (5 each), so `check_market_conditions` takes the
sell-only branch. -/
def stBothSufficient : EngineState :=
  { cache1 := [("ASTER", { free := 10, locked := 0 }), ("AT", { free := 5, locked := 0 })],
    cache2 := [("ASTER", { free := 10, locked := 0 }), ("AT", { free := 5, locked := 0 })],
    direction_cache := some ("ACCOUNT1", "ACCOUNT2") }

/-- Ample ASTER, seller holds 6 AT, buyer holds none but plenty of USDT. -/
def stHedgePath : EngineState :=
  { cache1 := [("ASTER", { free := 10, locked := 0 }), ("AT", { free := 6, locked := 0 }),
               ("USDT", { free := 100, locked := 0 })],
    cache2 := [("ASTER", { free := 10, locked := 0 }),
               ("USDT", { free := 100, locked := 0 })],
    direction_cache := some ("ACCOUNT1", "ACCOUNT2") }

/-- A cycle attempt whose market check passed, that ran in hedge mode, and
whose strategy reported success. -/
def oracleHedgeSuccess : CycleOracle :=
  { marketOk := true, trade_mode := "normal", success := true }

/-- Initial scheduler state for a single-instrument configuration. -/
def schedStart : SchedState :=
  { current_pair_index := 0, volumes := [0], consecutive_failures := 0 }

/-- Per-mode statistics in which only Market-Only has reached 5 completed
attempts. -/
def perfFive : TradingStrategy → StrategyPerformance
  | TradingStrategy.MARKET_ONLY => { success_count := 3, total_count := 5 }
  | _ => { success_count := 1, total_count := 1 }

/-- The spec's scenario 3 seller: exactly 10 AT before the cycle, so the
limit sell is for the full 10. -/
def stScenario3 : EngineState :=
  { cache1 := [("AT", { free := 10, locked := 0 })],
    cache2 := [],
    direction_cache := some ("ACCOUNT1", "ACCOUNT2") }

/-- Gateway after 6 of the 10 filled and the remainder was canceled: the
seller's balance reads 4; the emergency market sell is accepted and fills. -/
def envScenario3 : GatewayEnv :=
  { gateway1 := [{ asset := "AT", free := some 4, locked := some 0 }],
    gateway2 := [],
    bid := 1, ask := 1001/1000, bid_qty := 100, ask_qty := 100,
    last_prices := [], asterBook := none,
    orderAccepted := fun _ => true,
    orderStatus := fun _ => OrderStatus.FILLED,
    now := 0 }

/-!  Theorems. -/

/-- C1: for every engine state, `determine_trade_direction` makes account 1
the seller and account 2 the buyer exactly when account 1's base-asset
balance is at least account 2's (so ties resolve to account 1 as seller), and
otherwise makes account 2 the seller and account 1 the buyer. -/
theorem determine_trade_direction_spec (st : EngineState) (pair : TradingPairConfig) :
    (determineTradeDirection st pair = ("ACCOUNT1", "ACCOUNT2") ↔
      getAssetBalance st.cache2 pair.base_asset ≤ getAssetBalance st.cache1 pair.base_asset) ∧
    (determineTradeDirection st pair = ("ACCOUNT2", "ACCOUNT1") ↔
      getAssetBalance st.cache1 pair.base_asset < getAssetBalance st.cache2 pair.base_asset) := by
  have hne : (("ACCOUNT1", "ACCOUNT2") : String × String) ≠ ("ACCOUNT2", "ACCOUNT1") := by
    decide
  simp only [determineTradeDirection]
  split_ifs with h
  · exact ⟨iff_of_true rfl h, iff_of_false hne (not_lt.mpr h)⟩
  · exact ⟨iff_of_false (Ne.symm hne) h, iff_of_true rfl (not_le.mp h)⟩

/-- Python `round` is the identity on integers. -/
theorem roundHalfEven_intCast (n : ℤ) : roundHalfEven (n : ℚ) = n := by
  unfold roundHalfEven
  rw [Int.floor_intCast]
  norm_num

/-- The formatted quantity of `create_order` is `⌊100·q⌋ / 100`: the final
`round(-, 2)` is the identity because the floored value already has two
decimal places. -/
theorem formatQuantity_eq (q : ℚ) : formatQuantity q = (⌊q * 100⌋ : ℚ) / 100 := by
  unfold formatQuantity pyRound
  rw [show q / (1/100) = q * 100 by ring]
  rw [show ((⌊q * 100⌋ : ℚ) * (1/100)) * (10 : ℚ) ^ (2 : ℕ) = (⌊q * 100⌋ : ℚ) by ring]
  rw [roundHalfEven_intCast]
  norm_num

/-- C10: for every requested quantity, the quantity `create_order` sends is
`floor(q / 0.01) · 0.01` with the final two-decimal rounding a no-op; it is
an integer multiple of 0.01, never exceeds the requested quantity, and
differs from it by strictly less than 0.01.  (`formatQuantity` takes no
precision argument: the instrument's configured precision plays no role.) -/
theorem create_order_quantity_format (q : ℚ) :
    formatQuantity q = (⌊q * 100⌋ : ℚ) / 100 ∧
    (∃ n : ℤ, formatQuantity q = (n : ℚ) / 100) ∧
    formatQuantity q ≤ q ∧
    q - formatQuantity q < 1/100 := by
  refine ⟨formatQuantity_eq q, ⟨⌊q * 100⌋, formatQuantity_eq q⟩, ?_, ?_⟩
  · rw [formatQuantity_eq, div_le_iff₀ (by norm_num : (0:ℚ) < 100)]
    exact Int.floor_le (q * 100)
  · rw [formatQuantity_eq]
    have h := Int.lt_floor_add_one (q * 100)
    linarith

/-- C2 counterexample: with the selling account holding 6000 AT, the
Market-Only path (`strategy_market_only`, source lines 2118-2119) submits a
sell for the full 6000, exceeding the lesser of the available balance and the
5000 safety ceiling. -/
theorem market_only_sell_quantity_uncapped :
    sellQuantityMarketOnly stBal6000 pairAT "ACCOUNT1" = 6000 ∧
    min (getAssetBalance stBal6000.cache1 pairAT.base_asset) 5000 = 5000 ∧
    ¬ sellQuantityMarketOnly stBal6000 pairAT "ACCOUNT1" ≤
        min (getAssetBalance stBal6000.cache1 pairAT.base_asset) 5000 := by
  refine ⟨?_, ?_, ?_⟩ <;>
    simp +decide [sellQuantityMarketOnly, getSellQuantity, getAssetBalance,
      stBal6000, pairAT, dictLookup, min_def]

/-- C2 amended: the Limit-Both and Limit-Market sell legs, the Limit-Both
repricing remainder, and the Limit-Market emergency conversion never exceed
the lesser of the seller's available balance and the 5000 ceiling; the
Market-Only sell leg equals the full available balance (no ceiling), and the
partial-fill remediation market order is for exactly the seller's re-read
gateway balance (again no ceiling). -/
theorem sell_quantity_caps (st : EngineState) (pair : TradingPairConfig)
    (name : String) (env : GatewayEnv) (ts : ℕ) (executed : ℚ)
    (hexec : 0 ≤ executed) :
    sellQuantityLimitBoth st pair name ≤ min ((getSellQuantity st pair name).1) 5000 ∧
    sellQuantityLimitMarket st pair name ≤ min ((getSellQuantity st pair name).1) 5000 ∧
    emergencySellQuantity st pair name ≤ min ((getSellQuantity st pair name).1) 5000 ∧
    sellQuantityLimitBoth st pair name - executed ≤
      min ((getSellQuantity st pair name).1) 5000 ∧
    sellQuantityMarketOnly st pair name = (getSellQuantity st pair name).1 ∧
    ∀ r ∈ (handlePartialLimitSell env st pair name ts).2.2,
      r.quantity = getAssetBalance
        (buildBalances (if name = "ACCOUNT1" then env.gateway1 else env.gateway2))
        pair.base_asset := by
  have hcap : sellQuantityLimitBoth st pair name ≤
      min ((getSellQuantity st pair name).1) 5000 := by
    simp only [sellQuantityLimitBoth]
    split_ifs with h
    · exact le_min (le_of_lt h) le_rfl
    · exact le_min le_rfl (not_lt.mp h)
  refine ⟨hcap, hcap, hcap, le_trans (by linarith) hcap, rfl, ?_⟩
  intro r hr
  unfold handlePartialLimitSell at hr
  by_cases hname : name = "ACCOUNT1" <;>
    simp only [hname, refreshCache1, refreshCache2] at hr ⊢ <;>
    simp at hr ⊢ <;>
    (repeat' split at hr) <;>
    simp_all

/-- C2 amended, witness: the Market-Only sell equals the seller's full
balance at a concrete state. -/
theorem sell_quantity_caps_witness :
    sellQuantityMarketOnly stBal6000 pairAT "ACCOUNT1" =
      (getSellQuantity stBal6000 pairAT "ACCOUNT1").1 :=
  (sell_quantity_caps stBal6000 pairAT "ACCOUNT1" envWideSpread 0 2
    (by norm_num)).2.2.2.2.1

/-- Looking up the overwritten key after a Python-dict value overwrite. -/
theorem dictLookup_map_self (d : BalanceDict) (k : String) (v : AccountBalance) :
    dictLookup (d.map fun p => if p.1 = k then (k, v) else p) k =
      if (dictLookup d k).isSome then some v else none := by
  induction d with
  | nil => simp [dictLookup]
  | cons hd tl ih =>
      obtain ⟨k0, v0⟩ := hd
      by_cases h : k0 = k
      · subst h
        simp only [List.map_cons, ite_true, if_true]
        rw [dictLookup, if_pos rfl, dictLookup, if_pos rfl]
        simp
      · simp only [List.map_cons, if_neg h]
        rw [dictLookup, if_neg h, dictLookup, if_neg h]
        exact ih

/-- A Python-dict value overwrite at key `k` leaves lookups at other keys
unchanged. -/
theorem dictLookup_map_other (d : BalanceDict) (k : String) (v : AccountBalance)
    (a : String) (hak : a ≠ k) :
    dictLookup (d.map fun p => if p.1 = k then (k, v) else p) a = dictLookup d a := by
  induction d with
  | nil => simp [dictLookup]
  | cons hd tl ih =>
      obtain ⟨k0, v0⟩ := hd
      by_cases h : k0 = k
      · subst h
        simp only [List.map_cons, ite_true, if_true]
        rw [dictLookup, if_neg (Ne.symm hak), dictLookup, if_neg (Ne.symm hak)]
        exact ih
      · by_cases ha : k0 = a
        · simp only [List.map_cons, if_neg h]
          rw [dictLookup, if_pos ha, dictLookup, if_pos ha]
        · simp only [List.map_cons, if_neg h]
          rw [dictLookup, if_neg ha, dictLookup, if_neg ha]
          exact ih

/-- Lookup after appending a fresh key-value pair. -/
theorem dictLookup_append_single (d : BalanceDict) (k : String)
    (v : AccountBalance) (a : String) :
    dictLookup (d ++ [(k, v)]) a =
      match dictLookup d a with
      | some w => some w
      | none => if k = a then some v else none := by
  induction d with
  | nil =>
      rw [List.nil_append, dictLookup]
      rfl
  | cons hd tl ih =>
      obtain ⟨k0, v0⟩ := hd
      by_cases h : k0 = a
      · simp only [List.cons_append]
        rw [dictLookup, if_pos h, dictLookup, if_pos h]
      · simp only [List.cons_append]
        rw [dictLookup, if_neg h, dictLookup, if_neg h]
        exact ih

/-- The characteristic equation of `dictInsert` (Python dict assignment). -/
theorem dictLookup_dictInsert (d : BalanceDict) (k : String) (v : AccountBalance)
    (a : String) :
    dictLookup (dictInsert d k v) a = if k = a then some v else dictLookup d a := by
  unfold dictInsert
  by_cases hs : (dictLookup d k).isSome
  · rw [if_pos hs]
    by_cases hka : k = a
    · subst hka
      rw [dictLookup_map_self, if_pos hs, if_pos rfl]
    · rw [dictLookup_map_other d k v a (fun h => hka h.symm), if_neg hka]
  · rw [if_neg hs, dictLookup_append_single]
    cases hda : dictLookup d a with
    | none => rfl
    | some w =>
        by_cases hka : k = a
        · subst hka
          rw [hda] at hs
          simp at hs
        · simp [hka]

/-- The cache built by `get_account_balance` maps each asset to the parse of
the last raw gateway entry carrying that asset. -/
theorem dictLookup_buildBalances_aux (raw : List RawBalance) (d : BalanceDict)
    (a : String) :
    dictLookup (raw.foldl (fun d e => dictInsert d e.asset (parseBalance e)) d) a =
      match lastRawEntry raw a with
      | some e => some (parseBalance e)
      | none => dictLookup d a := by
  induction raw generalizing d with
  | nil => simp [lastRawEntry]
  | cons e raw ih =>
      simp only [List.foldl_cons]
      rw [ih]
      unfold lastRawEntry
      simp only [List.reverse_cons, List.find?_append]
      cases hfind : List.find? (fun e' => e'.asset == a) raw.reverse with
      | some e' => simp
      | none =>
          simp only [Option.none_or]
          by_cases he : e.asset = a
          · have hbe : (e.asset == a) = true := by simp [he]
            simp [List.find?, hbe, dictLookup_dictInsert, he]
          · have hbe : (e.asset == a) = false := by simp [he]
            simp [List.find?, hbe, dictLookup_dictInsert, he]

/-- `get_asset_balance` after a cache rebuild returns `free + locked` of the
last matching raw gateway entry (with absent fields defaulting to 0), and 0
when the asset never appears. -/
theorem getAssetBalance_buildBalances (raw : List RawBalance) (a : String) :
    getAssetBalance (buildBalances raw) a =
      match lastRawEntry raw a with
      | some e => e.free.getD 0 + e.locked.getD 0
      | none => 0 := by
  unfold getAssetBalance buildBalances
  rw [dictLookup_buildBalances_aux]
  cases lastRawEntry raw a <;> simp [dictLookup, parseBalance]

/-- C9: `get_asset_balance` returns the sum of the free and locked amounts of
the cached entry, 0 when the asset is absent; the cached entry is the parse
of the last raw gateway entry with that asset; and `get_sell_quantity` is
exactly this cache read, so sell sizing (like direction choice and condition
checks) counts funds locked in open orders as available. -/
theorem get_asset_balance_spec :
    (∀ cache asset b, dictLookup cache asset = some b →
        getAssetBalance cache asset = b.free + b.locked) ∧
    (∀ cache asset, dictLookup cache asset = none →
        getAssetBalance cache asset = 0) ∧
    (∀ raw asset, getAssetBalance (buildBalances raw) asset =
        match lastRawEntry raw asset with
        | some e => e.free.getD 0 + e.locked.getD 0
        | none => 0) ∧
    (∀ st pair name, (getSellQuantity st pair name).1 =
        getAssetBalance (cacheOf st name) pair.base_asset) := by
  refine ⟨?_, ?_, getAssetBalance_buildBalances, ?_⟩
  · intro cache asset b h
    simp [getAssetBalance, h]
  · intro cache asset h
    simp [getAssetBalance, h]
  · intro st pair name
    unfold getSellQuantity cacheOf
    split_ifs <;> rfl

/-- C9 witness: a balance with 2 free and 3 locked reads as 5. -/
theorem get_asset_balance_spec_witness :
    getAssetBalance [("AT", { free := 2, locked := 3 })] "AT" = (2 : ℚ) + 3 :=
  get_asset_balance_spec.1 [("AT", { free := 2, locked := 3 })] "AT"
    { free := 2, locked := 3 } (by simp [dictLookup])

/-- C5: clientOrderId reuse inside one `strategy_limit_both` cycle.  When the
market moves away from the resting sell leg twice, both replacement limit
sells are submitted with the same id `t_ls_<timestamp>_r`, because
`sell_order_id` is never reassigned after the first repricing (source lines
1860-1877), so the list of submitted ids is not duplicate-free. -/
theorem limit_both_reprice_id_reuse :
    (limitBothSubmittedIds "ACCOUNT1" "ACCOUNT2" 1759999999999
        [LBEvent.repriceSell, LBEvent.repriceSell])[2]? =
      (limitBothSubmittedIds "ACCOUNT1" "ACCOUNT2" 1759999999999
        [LBEvent.repriceSell, LBEvent.repriceSell])[3]? ∧
    ((limitBothSubmittedIds "ACCOUNT1" "ACCOUNT2" 1759999999999
        [LBEvent.repriceSell, LBEvent.repriceSell])[2]?).isSome = true ∧
    ¬ (limitBothSubmittedIds "ACCOUNT1" "ACCOUNT2" 1759999999999
        [LBEvent.repriceSell, LBEvent.repriceSell]).Nodup := by
  refine ⟨rfl, rfl, ?_⟩
  intro h
  simp only [limitBothSubmittedIds, List.map_cons, List.map_nil] at h
  have h2 := (List.nodup_cons.mp (List.nodup_cons.mp h).2).2
  exact (List.nodup_cons.mp h2).1 (List.mem_singleton.mpr rfl)

/-- C4: the cumulative volume of `execute_trading_cycle` never decreases over
any sequence of cycle attempts, is unchanged whenever the cycle does not
report success, and each successful cycle adds exactly the configured
quantity in sell-only mode and twice the configured quantity in hedge mode. -/
theorem cycle_volume_accounting (pair : TradingPairConfig)
    (hq : 0 ≤ pair.fixed_buy_quantity) :
    (∀ o v, v ≤ (executeTradingCycleVolume o pair v).2) ∧
    (∀ os v, v ≤ runCycles pair os v) ∧
    (∀ o v, (executeTradingCycleVolume o pair v).1 = false →
        (executeTradingCycleVolume o pair v).2 = v) ∧
    (∀ o v, (executeTradingCycleVolume o pair v).1 = true →
        (o.trade_mode = "sell_only" →
          (executeTradingCycleVolume o pair v).2 = v + pair.fixed_buy_quantity) ∧
        (o.trade_mode ≠ "sell_only" →
          (executeTradingCycleVolume o pair v).2 = v + pair.fixed_buy_quantity * 2)) := by
  have hstep : ∀ o v, v ≤ (executeTradingCycleVolume o pair v).2 := by
    intro o v
    unfold executeTradingCycleVolume
    split_ifs <;> simp <;> linarith
  refine ⟨hstep, ?_, ?_, ?_⟩
  · intro os
    induction os with
    | nil =>
        intro v
        simp [runCycles]
    | cons o os ih =>
        intro v
        simp only [runCycles, List.foldl_cons] at ih ⊢
        exact le_trans (hstep o v) (ih _)
  · intro o v h
    unfold executeTradingCycleVolume at h ⊢
    split_ifs at h ⊢ <;> simp_all
  · intro o v h
    unfold executeTradingCycleVolume at h ⊢
    split_ifs at h ⊢ <;>
      refine ⟨fun hm => ?_, fun hm => ?_⟩ <;> simp_all

/-- C4 witness: one successful hedge cycle on `pairAT` keeps the volume
nondecreasing. -/
theorem cycle_volume_accounting_witness :
    (0 : ℚ) ≤ runCycles pairAT [oracleHedgeSuccess] 0 :=
  (cycle_volume_accounting pairAT (by norm_num [pairAT])).2.1 [oracleHedgeSuccess] 0

/-- The Python `max(..., key=...)` fold returns an element of the list. -/
theorem foldl_best_mem {α : Type} (f : α → ℚ) (s : α) (rest : List α) :
    rest.foldl (fun best t => if f t > f best then t else best) s ∈ s :: rest := by
  induction rest generalizing s with
  | nil => simp
  | cons x xs ih =>
      simp only [List.foldl_cons]
      by_cases h : f x > f s
      · rw [if_pos h]
        exact List.mem_cons_of_mem s (ih x)
      · rw [if_neg h]
        rcases List.mem_cons.mp (ih s) with h1 | h1
        · rw [h1]
          exact List.mem_cons_self _ _
        · exact List.mem_cons_of_mem s (List.mem_cons_of_mem x h1)

/-- The Python `max(..., key=...)` fold returns a maximizer of the key. -/
theorem foldl_best_ge {α : Type} (f : α → ℚ) (s : α) (rest : List α) :
    ∀ x ∈ s :: rest,
      f x ≤ f (rest.foldl (fun best t => if f t > f best then t else best) s) := by
  induction rest generalizing s with
  | nil =>
      intro x hx
      rw [List.mem_singleton.mp hx]
      simp
  | cons y ys ih =>
      intro x hx
      simp only [List.foldl_cons]
      by_cases h : f y > f s
      · rw [if_pos h]
        rcases List.mem_cons.mp hx with h1 | h1
        · rw [h1]
          exact le_trans (le_of_lt h) (ih y y (List.mem_cons_self _ _))
        · exact ih y x h1
      · rw [if_neg h]
        rcases List.mem_cons.mp hx with h1 | h1
        · rw [h1]
          exact ih s s (List.mem_cons_self _ _)
        · rcases List.mem_cons.mp h1 with h2 | h2
          · rw [h2]
            exact le_trans (not_lt.mp h) (ih s s (List.mem_cons_self _ _))
          · exact ih s x (List.mem_cons_of_mem s h2)

/-- C6: the auto-mode market score is the sum of 0-3-point spread, depth and
volatility components (hence at most 9); scores of at least 7 select
Limit-Both, at least 4 Limit-Market, otherwise Market-Only; and as soon as
some tracked mode has at least 5 completed attempts, `get_best_strategy`
returns a mode with at least 5 attempts whose recorded success rate is
maximal among those modes, overriding the score-based pick, while with no
such mode it returns the score-based pick. -/
theorem auto_strategy_selection_spec (env : GatewayEnv) (pair : TradingPairConfig)
    (perf : TradingStrategy → StrategyPerformance) :
    (marketScore env pair =
        spreadScore pair (calculateSpreadPercentage env.bid env.ask) +
          depthScore pair env.bid_qty env.ask_qty +
            volatilityScore (calculatePriceVolatility env.last_prices) ∧
      spreadScore pair (calculateSpreadPercentage env.bid env.ask) ≤ 3 ∧
      depthScore pair env.bid_qty env.ask_qty ≤ 3 ∧
      volatilityScore (calculatePriceVolatility env.last_prices) ≤ 3 ∧
      marketScore env pair ≤ 9) ∧
    ((7 ≤ marketScore env pair →
        autoSelectStrategyByMarketCondition env pair = TradingStrategy.LIMIT_BOTH) ∧
      (4 ≤ marketScore env pair → marketScore env pair < 7 →
        autoSelectStrategyByMarketCondition env pair = TradingStrategy.LIMIT_MARKET) ∧
      (marketScore env pair < 4 →
        autoSelectStrategyByMarketCondition env pair = TradingStrategy.MARKET_ONLY)) ∧
    ((∃ s ∈ trackedStrategies, 5 ≤ (perf s).total_count) →
      getBestStrategy env pair perf ∈ trackedStrategies ∧
      5 ≤ (perf (getBestStrategy env pair perf)).total_count ∧
      ∀ s ∈ trackedStrategies, 5 ≤ (perf s).total_count →
        successRate (perf s) ≤ successRate (perf (getBestStrategy env pair perf))) ∧
    ((∀ s ∈ trackedStrategies, (perf s).total_count < 5) →
      getBestStrategy env pair perf = autoSelectStrategyByMarketCondition env pair) := by
  have hs3 : spreadScore pair (calculateSpreadPercentage env.bid env.ask) ≤ 3 := by
    simp only [spreadScore]
    split_ifs <;> norm_num
  have hd3 : depthScore pair env.bid_qty env.ask_qty ≤ 3 := by
    simp only [depthScore]
    split_ifs <;> norm_num
  have hv3 : volatilityScore (calculatePriceVolatility env.last_prices) ≤ 3 := by
    simp only [volatilityScore]
    split_ifs <;> norm_num
  refine ⟨⟨rfl, hs3, hd3, hv3, ?_⟩, ⟨?_, ?_, ?_⟩, ?_, ?_⟩
  · unfold marketScore
    unfold marketScore at hs3 hd3 hv3
    omega
  · intro h7
    simp only [autoSelectStrategyByMarketCondition]
    rw [if_pos h7]
  · intro h4 h7
    simp only [autoSelectStrategyByMarketCondition]
    rw [if_neg (by omega), if_pos h4]
  · intro h4
    simp only [autoSelectStrategyByMarketCondition]
    rw [if_neg (by omega), if_neg (by omega)]
  · rintro ⟨s₀, hs₀, h5⟩
    have hmem : s₀ ∈ trackedStrategies.filter fun s => (perf s).total_count ≥ 5 := by
      rw [List.mem_filter]
      exact ⟨hs₀, by simpa using h5⟩
    simp only [getBestStrategy]
    split
    next heq =>
      rw [heq] at hmem
      simp at hmem
    next s rest heq =>
      have hmem2 :
          rest.foldl (fun best t =>
            if successRate (perf t) > successRate (perf best) then t else best) s ∈
            s :: rest :=
        foldl_best_mem (fun t => successRate (perf t)) s rest
      rw [← heq] at hmem2
      have hfil := List.mem_filter.mp hmem2
      refine ⟨hfil.1, by simpa using hfil.2, ?_⟩
      intro s' hs' h5'
      have hm : s' ∈ trackedStrategies.filter fun s => (perf s).total_count ≥ 5 :=
        List.mem_filter.mpr ⟨hs', by simpa using h5'⟩
      rw [heq] at hm
      exact foldl_best_ge (fun t => successRate (perf t)) s rest s' hm
  · intro hlt
    have hnil : (trackedStrategies.filter fun s => (perf s).total_count ≥ 5) = [] := by
      rw [List.filter_eq_nil_iff]
      intro a ha
      simpa using Nat.not_le.mpr (hlt a ha)
    simp only [getBestStrategy]
    split
    next => rfl
    next s rest heq =>
      rw [hnil] at heq
      cases heq

/-- C6 witness: with only Market-Only at 5 completed attempts, the override
picks a mode with at least 5 attempts. -/
theorem auto_strategy_selection_spec_witness :
    5 ≤ (perfFive (getBestStrategy envWideSpread pairAT perfFive)).total_count :=
  ((auto_strategy_selection_spec envWideSpread pairAT perfFive).2.2.1
    ⟨TradingStrategy.MARKET_ONLY, by simp [trackedStrategies], by norm_num [perfFive]⟩).2.1

/-- C7 counterexample: with the spread at 0.003 against a configured maximum
of 0.002, `check_market_conditions` does not return false when both accounts
hold at least half the configured quantity: it returns (true, "sell_only")
without ever checking the spread, and the cycle then proceeds to submit a
sell order. -/
theorem check_market_conditions_wide_spread_sell_only :
    spreadGT (calculateSpreadPercentage envWideSpread.bid envWideSpread.ask)
        pairAT.max_spread = true ∧
    checkMarketConditions cfg0 envWideSpread pairAT stBothSufficient =
      ((true, "sell_only"), stBothSufficient, []) := by
  constructor
  · simp only [spreadGT, calculateSpreadPercentage, envWideSpread, pairAT]
    norm_num
  · simp only [checkMarketConditions, checkAndBuyAsterIfNeeded]
    simp +decide [getAssetBalance, dictLookup, stBothSufficient, pairAT, cfg0]
    all_goals norm_num

/-- C7 amended: when the hedge path is taken (the accounts' base balances are
not both at or above half the configured quantity, nor both below it), the
Aster balances are sufficient, the direction cache is populated, the sell and
buy balance checks pass on their first attempt, and the spread exceeds the
configured maximum, `check_market_conditions` returns (false, "error") with
the engine state unchanged and no order submitted.  (When both accounts hold
enough base asset it instead returns (true, "sell_only") without checking the
spread.) -/
theorem check_market_conditions_spread_gate (cfg : GlobalConfig) (env : GatewayEnv)
    (pair : TradingPairConfig) (st : EngineState) (d : String × String)
    (hA1 : getAssetBalance st.cache1 "ASTER" ≥ cfg.min_aster_balance)
    (hA2 : getAssetBalance st.cache2 "ASTER" ≥ cfg.min_aster_balance)
    (hDir : st.direction_cache = some d)
    (hNotBoth : ¬ (getAssetBalance st.cache1 pair.base_asset ≥ pair.fixed_buy_quantity / 2 ∧
        getAssetBalance st.cache2 pair.base_asset ≥ pair.fixed_buy_quantity / 2))
    (hNotNeither : ¬ (getAssetBalance st.cache1 pair.base_asset < pair.fixed_buy_quantity / 2 ∧
        getAssetBalance st.cache2 pair.base_asset < pair.fixed_buy_quantity / 2))
    (hSell : (getSellQuantity st pair d.1).1 > 0)
    (hBid : ¬ env.bid = 0) (hAsk : ¬ env.ask = 0)
    (hBuy : (if d.2 = "ACCOUNT1" then getAssetBalance st.cache1 "USDT"
        else getAssetBalance st.cache2 "USDT") ≥
          pair.fixed_buy_quantity * ((env.bid + env.ask) / 2))
    (hSpread : (env.ask - env.bid) / env.bid > pair.max_spread) :
    checkMarketConditions cfg env pair st = ((false, "error"), st, []) := by
  have hAster : checkAndBuyAsterIfNeeded cfg env st = (true, st, []) := by
    unfold checkAndBuyAsterIfNeeded
    rw [if_pos ⟨hA1, hA2⟩]
  have hSellCheck : checkSellConditions st pair = (true, st) := by
    unfold checkSellConditions getSellQuantityAuto getCachedTradeDirection
    rw [hDir]
    simp [hSell]
  have hSellRetry : checkSellConditionsWithRetry env pair 3 st = (true, st) := by
    simp only [checkSellConditionsWithRetry, hSellCheck]
    simp
  have hBuyCheck : checkBuyConditions env st pair = (true, st) := by
    unfold checkBuyConditions getCachedTradeDirection
    rw [hDir]
    simp only [if_neg (by simp [hBid, hAsk] : ¬ (env.bid = 0 ∨ env.ask = 0))]
    simp [hBuy]
  have hBuyRetry : checkBuyConditionsWithRetry env pair 3 st = (true, st) := by
    simp only [checkBuyConditionsWithRetry, hBuyCheck]
    simp
  have hSpreadB : spreadGT (calculateSpreadPercentage env.bid env.ask)
      pair.max_spread = true := by
    unfold calculateSpreadPercentage spreadGT
    rw [if_neg (by simp [hBid, hAsk] : ¬ (env.bid = 0 ∨ env.ask = 0))]
    simpa using hSpread
  simp [checkMarketConditions, hAster, hSellRetry, hBuyRetry, hNotBoth,
    hNotNeither, hBid, hAsk, hSpreadB]

/-- C7 amended, witness: a hedge-path state with spread 0.003 against max
0.002 makes the check fail with no order and no state change. -/
theorem check_market_conditions_spread_gate_witness :
    checkMarketConditions cfg0 envWideSpread pairAT stHedgePath =
      ((false, "error"), stHedgePath, []) := by
  apply check_market_conditions_spread_gate cfg0 envWideSpread pairAT stHedgePath
      ("ACCOUNT1", "ACCOUNT2")
  · simp +decide [getAssetBalance, dictLookup, stHedgePath, cfg0] <;> norm_num
  · simp +decide [getAssetBalance, dictLookup, stHedgePath, cfg0] <;> norm_num
  · rfl
  · simp +decide [getAssetBalance, dictLookup, stHedgePath, pairAT] <;> norm_num
  · simp +decide [getAssetBalance, dictLookup, stHedgePath, pairAT] <;> norm_num
  · simp +decide [getSellQuantity, getAssetBalance, dictLookup, stHedgePath, pairAT] <;>
      norm_num
  · norm_num [envWideSpread]
  · norm_num [envWideSpread]
  · simp +decide [getAssetBalance, dictLookup, stHedgePath, pairAT, envWideSpread] <;>
      norm_num
  · norm_num [envWideSpread, pairAT]

/-- C8 counterexample: instrument X with quantity 10 and target 100, all
cycles succeeding in hedge mode (adding 20 each).  After 5 iterations the
volume reaches 100 and the scheduler reports the target, but the 6th
iteration still runs a cycle on X and drives the volume to 120: nothing flags
the instrument complete or stops driving it toward further volume. -/
theorem scheduler_keeps_trading_after_target :
    (runSched [pairX] oracleHedgeSuccess 5 schedStart).volumes = [100] ∧
    (monitorStep [pairX] oracleHedgeSuccess
        (runSched [pairX] oracleHedgeSuccess 4 schedStart)).2 = true ∧
    (runSched [pairX] oracleHedgeSuccess 6 schedStart).volumes = [120] := by
  refine ⟨?_, ?_, ?_⟩ <;>
    simp +decide [runSched, monitorStep, executeTradingCycleVolume, switchToNextPair,
      pairX, oracleHedgeSuccess, schedStart] <;> norm_num

/-- C8 amended: when a successful cycle brings the current instrument's
volume to its target, the scheduler step reports the target reached, resets
the failure counter, and advances the rotation by two positions instead of
one (the instrument itself stays in the unchanged pair list); but the step
still increases the instrument's stored volume, and any later successful
visit does so again, so the instrument keeps being driven beyond its
target. -/
theorem monitorStep_success_reached (pairs : List TradingPairConfig)
    (o : CycleOracle) (s : SchedState) (v1 : ℚ)
    (h : executeTradingCycleVolume o (pairs.getD s.current_pair_index default)
        (s.volumes.getD s.current_pair_index 0) = (true, v1))
    (hreach : (pairs.getD s.current_pair_index default).target_volume ≤ v1) :
    monitorStep pairs o s =
      ({ current_pair_index := (s.current_pair_index + 2) % pairs.length,
         volumes := s.volumes.set s.current_pair_index v1,
         consecutive_failures := 0 }, true) := by
  have hd : decide (v1 ≥ (pairs.getD s.current_pair_index default).target_volume) = true :=
    decide_eq_true hreach
  have hsw : switchToNextPair pairs.length (switchToNextPair pairs.length
      s.current_pair_index) = (s.current_pair_index + 2) % pairs.length := by
    unfold switchToNextPair
    rw [Nat.mod_add_mod]
  have hreach2 : (pairs[s.current_pair_index]?.getD default).target_volume ≤ v1 := by
    simpa [List.getD_eq_getElem?_getD] using hreach
  simp only [monitorStep, h]
  simp [hd, hsw, hreach2]

theorem scheduler_target_behavior (pairs : List TradingPairConfig)
    (o : CycleOracle) (s : SchedState)
    (hq : 0 < (pairs.getD s.current_pair_index default).fixed_buy_quantity)
    (hidx : s.current_pair_index < s.volumes.length)
    (hM : o.marketOk = true) (hS : o.success = true)
    (hReach : (pairs.getD s.current_pair_index default).target_volume ≤
        (executeTradingCycleVolume o (pairs.getD s.current_pair_index default)
          (s.volumes.getD s.current_pair_index 0)).2) :
    (monitorStep pairs o s).2 = true ∧
    (monitorStep pairs o s).1.current_pair_index =
      (s.current_pair_index + 2) % pairs.length ∧
    (monitorStep pairs o s).1.consecutive_failures = 0 ∧
    s.volumes.getD s.current_pair_index 0 <
      (monitorStep pairs o s).1.volumes.getD s.current_pair_index 0 := by
  have hstep : executeTradingCycleVolume o (pairs.getD s.current_pair_index default)
      (s.volumes.getD s.current_pair_index 0) =
      (true, s.volumes.getD s.current_pair_index 0 +
        (if o.trade_mode = "sell_only" then
          (pairs.getD s.current_pair_index default).fixed_buy_quantity
        else (pairs.getD s.current_pair_index default).fixed_buy_quantity * 2)) := by
    unfold executeTradingCycleVolume
    rw [hM, hS]
    simp
  have hlt : s.volumes.getD s.current_pair_index 0 <
      (executeTradingCycleVolume o (pairs.getD s.current_pair_index default)
        (s.volumes.getD s.current_pair_index 0)).2 := by
    rw [hstep]
    dsimp only
    split_ifs <;> linarith
  have hmon := monitorStep_success_reached pairs o s
    ((executeTradingCycleVolume o (pairs.getD s.current_pair_index default)
      (s.volumes.getD s.current_pair_index 0)).2)
    (by rw [hstep]) hReach
  rw [hmon]
  refine ⟨rfl, rfl, rfl, ?_⟩
  have hget : ((s.volumes.set s.current_pair_index
      (executeTradingCycleVolume o (pairs.getD s.current_pair_index default)
        (s.volumes.getD s.current_pair_index 0)).2)).getD s.current_pair_index 0 =
      (executeTradingCycleVolume o (pairs.getD s.current_pair_index default)
        (s.volumes.getD s.current_pair_index 0)).2 := by
    rw [List.getD_eq_getElem?_getD, List.getElem?_set_self hidx]
    rfl
  rw [hget]
  exact hlt

/-- C8 amended, witness: at volume 90, a successful hedge cycle on X reports
the target reached. -/
theorem scheduler_target_behavior_witness :
    (monitorStep [pairX] oracleHedgeSuccess
      { current_pair_index := 0, volumes := [90], consecutive_failures := 0 }).2 = true :=
  (scheduler_target_behavior [pairX] oracleHedgeSuccess
    { current_pair_index := 0, volumes := [90], consecutive_failures := 0 }
    (by norm_num [pairX]) (by norm_num) rfl rfl
    (by simp +decide [executeTradingCycleVolume, oracleHedgeSuccess, pairX] <;>
      norm_num)).1

/-- C3 counterexample: the seller holds 6000, so the Limit-Market sell leg is
capped to 5000; after 1000 of it fills and the remainder is canceled, the
re-read gateway balance is 5000 and `handle_partial_limit_sell` market-sells
all 5000 — the original full order quantity, not the 4000 remainder. -/
theorem partial_sell_remediation_full_quantity :
    sellQuantityLimitMarket stBal6000 pairAT "ACCOUNT1" = 5000 ∧
    getAssetBalance (buildBalances envAfterPartialFill.gateway1) pairAT.base_asset =
      6000 - 1000 ∧
    ((handlePartialLimitSell envAfterPartialFill stBal6000 pairAT "ACCOUNT1" 99).2.2.map
      fun r => r.quantity) = [5000] ∧
    (5000 : ℚ) = sellQuantityLimitMarket stBal6000 pairAT "ACCOUNT1" ∧
    (5000 : ℚ) ≠ sellQuantityLimitMarket stBal6000 pairAT "ACCOUNT1" - 1000 := by
  refine ⟨?_, ?_, ?_, ?_, ?_⟩ <;>
    simp +decide [sellQuantityLimitMarket, getSellQuantity, getAssetBalance,
      handlePartialLimitSell, refreshCache1, buildBalances, dictInsert, dictLookup,
      parseBalance, stBal6000, pairAT, envAfterPartialFill] <;> norm_num

/-- C3 amended: when the original limit sell was for the seller's full
balance (balance at most the 5000 cap), the remediation market order is for
exactly the original quantity minus the executed quantity — the re-read
gateway balance — and the handler reports success; with a capped order
(balance above 5000) the remediation quantity is balance-based and can equal
the original full quantity. -/
theorem partial_sell_remediation_exact (env : GatewayEnv) (st : EngineState)
    (pair : TradingPairConfig) (ts : ℕ) (executed : ℚ)
    (hcap : getAssetBalance st.cache1 pair.base_asset ≤ 5000)
    (hgw : getAssetBalance (buildBalances env.gateway1) pair.base_asset =
        getAssetBalance st.cache1 pair.base_asset - executed)
    (hrem : getAssetBalance st.cache1 pair.base_asset - executed > 1/10)
    (hacc : env.orderAccepted (pair.base_asset.toLower ++ "_es_" ++ toString ts) = true)
    (hfill : env.orderStatus (pair.base_asset.toLower ++ "_es_" ++ toString ts) =
        OrderStatus.FILLED) :
    (handlePartialLimitSell env st pair "ACCOUNT1" ts).1 = true ∧
    ((handlePartialLimitSell env st pair "ACCOUNT1" ts).2.2.map fun r => r.quantity) =
      [sellQuantityLimitMarket st pair "ACCOUNT1" - executed] := by
  have horig : sellQuantityLimitMarket st pair "ACCOUNT1" =
      getAssetBalance st.cache1 pair.base_asset := by
    unfold sellQuantityLimitMarket getSellQuantity
    rw [if_pos rfl]
    exact if_neg (not_lt.mpr hcap)
  unfold handlePartialLimitSell
  simp only [refreshCache1, if_pos rfl]
  rw [horig]
  have hrem2 : (10 : ℚ)⁻¹ < getAssetBalance st.cache1 pair.base_asset - executed := by
    simpa using hrem
  simp [hgw, hrem2, hacc, hfill]

/-- C3 amended, witness: the spec's scenario 3 — limit sell for 10, 6 filled,
remediation market-sells exactly 4 and succeeds. -/
theorem partial_sell_remediation_exact_witness :
    (handlePartialLimitSell envScenario3 stScenario3 pairAT "ACCOUNT1" 7).1 = true ∧
    ((handlePartialLimitSell envScenario3 stScenario3 pairAT "ACCOUNT1" 7).2.2.map
      fun r => r.quantity) = [sellQuantityLimitMarket stScenario3 pairAT "ACCOUNT1" - 6] := by
  apply partial_sell_remediation_exact
  · simp +decide [getAssetBalance, dictLookup, stScenario3, pairAT] <;> norm_num
  · simp +decide [getAssetBalance, dictLookup, buildBalances, dictInsert, parseBalance,
      stScenario3, pairAT, envScenario3] <;> norm_num
  · simp +decide [getAssetBalance, dictLookup, stScenario3, pairAT] <;> norm_num
  · rfl
  · rfl

end MarketMaker
